import Mathlib

/-!
Verification of `src/platform/webos/init.c` (webOS jailer-fix provisioning):
`http_download_file`, `read_webos_release` and `apply_webos_jailer_fix`,
shallowly embedded as pure Lean functions over explicit environments.

Conventions of the embedding:
* `RARCH_LOG` / `RARCH_ERR` calls are pure logging and are not modelled.
* The directory-creation preamble of `http_download_file` (lines 35-48 of the
  source) only logs on failure and never returns early, so it has no effect on
  any modelled outcome; it is omitted.
* The libretro-common collaborators (`net_http_*`, `rjson_*`, `path_is_valid`,
  `runloop_msg_queue_push`) are not part of the given source tree; they are
  modelled as oracles / token streams following how the spec describes them
  (in particular, spec 4.3: `net_http_delete` releases the transfer handle and
  transitively the connection, and the response body returned by
  `net_http_data` is an owned buffer that the caller must free).
-/

section Downloader

/-- Environment of a single `http_download_file` invocation: the outcome of
each external call it makes, in the order the source makes them. -/
structure Transport where
  /-- does `net_http_connection_new` return non-NULL? (line 50) -/
  conn_ok : Bool
  /-- does `net_http_new` return non-NULL? (line 57) -/
  http_ok : Bool
  /-- does every `net_http_update` in the poll loop succeed? (lines 69-79; the
  only effect the loop has on the result of the function is success or
  failure) -/
  update_ok : Bool
  /-- the `net_http_error` flag after the transfer completes (line 81) -/
  http_error : Bool
  /-- the `net_http_status` result (line 88); an `Int`, as in C -/
  status : Int
  /-- the `net_http_data` result (line 98): `none` models a NULL pointer,
  `some body` a non-NULL buffer holding the byte list `body` (so `len` is
  `body.length`, possibly 0) -/
  data : Option (List Nat)
  /-- does `fopen(dst_path, "wb")` succeed? (line 107) -/
  open_ok : Bool
  /-- how many bytes `fwrite` manages to write: `wrote = min write_cap len`
  (line 116) -/
  write_cap : Nat

/-- A resource acquisition or release performed by `http_download_file`. -/
inductive RAct where
  /-- `net_http_connection_new` returned an owned connection context -/
  | acquireConn
  /-- `net_http_new` returned an owned transfer handle -/
  | acquireHttp
  /-- `net_http_data` returned a non-NULL owned body buffer -/
  | acquireData
  /-- `net_http_connection_free(conn)` (line 62) -/
  | freeConnDirect
  /-- `net_http_delete(http)`: releases the transfer handle and, transitively,
  the connection context (spec 4.3 step 4) -/
  | deleteHttp
  /-- `free(data)` -/
  | freeData
deriving DecidableEq, Repr

/-- Effect of one `http_download_file` invocation on the destination file. -/
inductive FState where
  /-- the destination was never opened -/
  | untouched
  /-- `fopen "wb"` truncated the file and `fwrite` wrote only `wrote` of
  `len` bytes (line 117) -/
  | shortWritten (wrote len : Nat)
  /-- the full body was written -/
  | written (content : List Nat)
deriving DecidableEq, Repr

/-- Result of one `http_download_file` invocation: the returned boolean, the
resource actions in program order, and the destination-file effect. -/
structure DLOut where
  ok : Bool
  acts : List RAct
  file : FState
deriving DecidableEq, Repr

/-- Shallow embedding of `http_download_file` (src/platform/webos/init.c
lines 30-132). `Int.tdiv` is the truncating C division `/` on `int`. -/
def http_download_file (t : Transport) : DLOut :=
  if !t.conn_ok then
    -- line 51: connection construction failed, nothing acquired
    ⟨false, [], .untouched⟩
  else if !t.http_ok then
    -- line 58: transfer construction failed; free the connection explicitly
    ⟨false, [.acquireConn, .freeConnDirect], .untouched⟩
  else if !t.update_ok then
    -- line 72: a poll-loop update failed
    ⟨false, [.acquireConn, .acquireHttp, .deleteHttp], .untouched⟩
  else if t.http_error then
    -- line 81: transport-level error flag
    ⟨false, [.acquireConn, .acquireHttp, .deleteHttp], .untouched⟩
  else if !(t.status.tdiv 100 == 2) then
    -- line 90: non-2xx status
    ⟨false, [.acquireConn, .acquireHttp, .deleteHttp], .untouched⟩
  else
    match t.data with
    | none =>
        -- line 100, `!data` arm: NULL body buffer
        ⟨false, [.acquireConn, .acquireHttp, .deleteHttp], .untouched⟩
    | some body =>
        if body.length == 0 then
          -- line 100, `len == 0` arm: non-NULL buffer, zero length.
          -- The source calls net_http_delete but never free(data) here.
          ⟨false, [.acquireConn, .acquireHttp, .acquireData, .deleteHttp],
            .untouched⟩
        else if !t.open_ok then
          -- line 108: fopen failed
          ⟨false, [.acquireConn, .acquireHttp, .acquireData, .freeData,
            .deleteHttp], .untouched⟩
        else
          let wrote := min t.write_cap body.length
          if wrote != body.length then
            -- line 117: short write
            ⟨false, [.acquireConn, .acquireHttp, .acquireData, .freeData,
              .deleteHttp], .shortWritten wrote body.length⟩
          else
            -- lines 126-131: full success
            ⟨true, [.acquireConn, .acquireHttp, .acquireData, .freeData,
              .deleteHttp], .written body⟩

/-- Number of times the connection context is acquired in an action list. -/
def connAcquires (acts : List RAct) : Nat := acts.count .acquireConn

/-- Number of times the connection context is released: directly by
`net_http_connection_free` or transitively by `net_http_delete`. -/
def connReleases (acts : List RAct) : Nat :=
  acts.count .freeConnDirect + acts.count .deleteHttp

/-- Number of times the transfer handle is acquired. -/
def httpAcquires (acts : List RAct) : Nat := acts.count .acquireHttp

/-- Number of times the transfer handle is released. -/
def httpReleases (acts : List RAct) : Nat := acts.count .deleteHttp

/-- Number of times a body buffer is acquired. -/
def dataAcquires (acts : List RAct) : Nat := acts.count .acquireData

/-- Number of times a body buffer is released. -/
def dataReleases (acts : List RAct) : Nat := acts.count .freeData

end Downloader

section Reader

/-- A JSON value, used to describe the documents `read_webos_release` parses. -/
inductive JVal where
  | jstr (s : String)
  | jnum
  | jbool (b : Bool)
  | jnull
  | jarr (items : List JVal)
  | jobj (pairs : List (String × JVal))

/-- One token of the `rjson_next` stream. Both object keys and string values
surface as `str`; `err` models a stream position from which `rjson_next`
returns `RJSON_ERROR` (and keeps doing so when called again). -/
inductive RTok where
  | obj | objEnd | arr | arrEnd
  | str (s : String)
  | num | btrue | bfalse | bnull
  | err
deriving DecidableEq, Repr

mutual
/-- The `rjson_next` token stream of a well-formed document (`RJSON_DONE` is
the end of the list). -/
def tokens : JVal → List RTok
  | .jstr s => [.str s]
  | .jnum => [.num]
  | .jbool true => [.btrue]
  | .jbool false => [.bfalse]
  | .jnull => [.bnull]
  | .jarr items => .arr :: tokensList items ++ [.arrEnd]
  | .jobj pairs => .obj :: tokensPairs pairs ++ [.objEnd]

/-- Token streams of the elements of an array, concatenated. -/
def tokensList : List JVal → List RTok
  | [] => []
  | v :: vs => tokens v ++ tokensList vs

/-- Token streams of the key/value pairs of an object, concatenated: each key
is a `str` token immediately followed by the stream of its value. -/
def tokensPairs : List (String × JVal) → List RTok
  | [] => []
  | (k, v) :: ps => .str k :: (tokens v ++ tokensPairs ps)
end

/-- The scanning loop of `read_webos_release` (src/platform/webos/init.c
lines 163-182) over a token stream. Every `str` token reached by the outer
`rjson_next` is treated as a key: the next token is consumed as its value
(`val_type`), and on `key = "webos_release"` with a string value the value is
captured and the loop breaks. A non-matching or non-string-valued pair leaves
the loop running from the token after the value token; `RJSON_ERROR` or
`RJSON_DONE` from either `rjson_next` call ends the loop with no capture. -/
def scan_tokens : List RTok → Option String
  | [] => none
  | .err :: _ => none
  | .str key :: .str v :: rest =>
      if key = "webos_release" then some v else scan_tokens rest
  | .str _ :: .err :: _ => none
  | .str _ :: _ :: rest => scan_tokens rest
  | [.str _] => none
  | _ :: rest => scan_tokens rest

/-- What the identifier source at `/var/run/nyx/os_info.json` provides to one
`read_webos_release` call. -/
inductive OsInfoSrc where
  /-- `fopen` failed, `malloc` failed, or `rjson_open_string` failed
  (lines 137-161): no token stream is ever produced -/
  | unreadable
  /-- the file was read and `rjson_open_string` succeeded on the document -/
  | parsed (doc : JVal)

/-- Shallow embedding of `read_webos_release` (lines 135-188): `none` models
the NULL return, `some s` a non-NULL `release_str` (captured via `strndup`,
so exactly the string of the value token, possibly empty). -/
def read_webos_release : OsInfoSrc → Option String
  | .unreadable => none
  | .parsed doc => scan_tokens (tokens doc)

/-- First-match lookup among the key/value pairs of one object level. -/
def specLookup : List (String × JVal) → String → Option String
  | [], _ => none
  | (k, .jstr v) :: ps, field =>
      if k = field then some v else specLookup ps field
  | (k, _) :: ps, field =>
      if k = field then none else specLookup ps field

/-- Top-level field lookup, written from the words of spec 4.1 ("scan
top-level key/value pairs for a key matching a fixed field name; on match,
capture the associated string value and stop scanning"): only keys of the
outermost object are considered, and a match whose value is not a string
yields nothing. Used to compare the scanner of the source against the spec. -/
def specTopLevelString (doc : JVal) (field : String) : Option String :=
  match doc with
  | .jobj pairs => specLookup pairs field
  | _ => none

end Reader

section Orchestrator

/-- `strlcpy`/`snprintf`-style bounded copy into a `size`-byte buffer: at most
`size - 1` characters are kept, silently truncating, always NUL-terminated. -/
def strTakeBuf (size : Nat) (s : String) : String :=
  String.mk (s.data.take (size - 1))

/-- Line 192. -/
def home_path : String := "/media/developer"

/-- Line 200: `snprintf(conf_path, 512, "%s/jail_app.conf", home_path)`. -/
def conf_path : String := strTakeBuf 512 (home_path ++ "/jail_app.conf")

/-- Line 201: the signature sibling path. -/
def sig_path : String := strTakeBuf 512 (home_path ++ "/jail_app.conf.sig")

/-- Lines 224-226: the configuration-artifact URL, formatted into a 512-byte
buffer. -/
def conf_url (webos_release : String) : String :=
  strTakeBuf 512
    ("https://developer.lge.com/common/file/DownloadFile.dev?sdkVersion="
      ++ webos_release ++ "&fileType=conf")

/-- Lines 227-229: the signature-artifact URL, formatted into a 512-byte
buffer. -/
def sig_url (webos_release : String) : String :=
  strTakeBuf 512
    ("https://developer.lge.com/common/file/DownloadFile.dev?sdkVersion="
      ++ webos_release ++ "&fileType=sig")

/-- An externally observable action of `apply_webos_jailer_fix`. -/
inductive OrchEvent where
  /-- `runloop_msg_queue_push` (lines 213-220) -/
  | notifyMsg (msg : String)
  /-- an `http_download_file(url, dst)` invocation -/
  | fetchCall (url : String) (dst : String)
deriving DecidableEq, Repr

/-- Environment of one `apply_webos_jailer_fix` call: the identifier source,
the `path_is_valid` filesystem oracle, and the outcome of each
`http_download_file` invocation (its network and disk behaviour is verified
separately through the `Transport` model). -/
structure OrchEnv where
  os_info : OsInfoSrc
  path_is_valid : String → Bool
  fetch : String → String → Bool

/-- Shallow embedding of `apply_webos_jailer_fix` (lines 190-255): the
returned boolean together with the trace of observable actions in program
order. The existence fast path (lines 203-208) only logs in the source: its
`free(webos_release)` and `return` statements are commented out there, so the
`path_is_valid` conjunction is computed but has no effect, and both downloads
go to the hard-coded `/media/developer/temp/test.{1,2}` paths (the
`conf_path`/`sig_path` arguments are commented out on lines 235 and 243). -/
def apply_webos_jailer_fix (env : OrchEnv) : Bool × List OrchEvent :=
  match read_webos_release env.os_info with
  | none => (false, [])
  | some webos_release =>
      let _found := env.path_is_valid conf_path && env.path_is_valid sig_path
      let u1 := conf_url webos_release
      let u2 := sig_url webos_release
      let r1 := env.fetch u1 "/media/developer/temp/test.1"
      let r2 := env.fetch u2 "/media/developer/temp/test.2"
      (r1 && r2,
        [.notifyMsg "webOS: Downloading jailer configuration files",
         .fetchCall u1 "/media/developer/temp/test.1",
         .fetchCall u2 "/media/developer/temp/test.2"])

/-- The destination argument of a fetch event, `none` for other events. -/
def fetchDst : OrchEvent → Option String
  | .fetchCall _ dst => some dst
  | _ => none

/-- Whether an event is an `http_download_file` invocation. -/
def isFetch (e : OrchEvent) : Bool := (fetchDst e).isSome

end Orchestrator

section ConcreteInputs

/-- An identifier document like the one of the spec scenario: the release
field holds `"24"`. -/
def doc24 : JVal := .jobj [("webos_release", .jstr "24")]

/-- Environment in which the identifier resolves to `"24"`, both artifact
paths are already valid on disk, and every download succeeds. -/
def envAllValid : OrchEnv :=
  ⟨.parsed doc24, fun _ => true, fun _ _ => true⟩

/-- Environment in which the identifier resolves to `"24"`, no artifact is on
disk, the first download fails and the second succeeds. -/
def envFirstFetchFails : OrchEnv :=
  ⟨.parsed doc24, fun _ => false,
   fun _ dst => dst == "/media/developer/temp/test.2"⟩

/-- A valid identifier document that lacks the `webos_release` field. -/
def docNoField : JVal := .jobj [("product_name", .jstr "webOS")]

/-- Environment whose identifier document parses but has no release field. -/
def envNoField : OrchEnv := ⟨.parsed docNoField, fun _ => true, fun _ _ => true⟩

/-- A document whose only `webos_release` key sits one level below the top. -/
def nestedOnlyDoc : JVal :=
  .jobj [("outer", .jobj [("webos_release", .jstr "1.0")])]

/-- A document whose `webos_release` field holds the empty string. -/
def emptyValueDoc : JVal := .jobj [("webos_release", .jstr "")]

/-- The token stream of `emptyValueDoc`. -/
def emptyValueToks : List RTok :=
  [.obj, .str "webos_release", .str "", .objEnd]

/-- Transport in which everything up to the body succeeds with status 200,
but `net_http_data` yields a non-NULL buffer of length 0. -/
def emptyBodyTransport : Transport :=
  ⟨true, true, true, false, 200, some [], true, 0⟩

/-- Transport that reaches the status check and reports 404. -/
def notFoundTransport : Transport :=
  ⟨true, true, true, false, 404, some [104, 105], true, 99⟩

/-- Transport with a 200 status whose `net_http_data` returns NULL. -/
def nullBodyTransport : Transport :=
  ⟨true, true, true, false, 200, none, true, 99⟩

/-- An identifier 520 characters long, making both formatted URLs overflow
their 512-byte buffers. -/
def longId : String := String.mk (List.replicate 520 'a')

/-- Environment whose identifier document resolves to `longId`. -/
def envLongId : OrchEnv :=
  ⟨.parsed (.jobj [("webos_release", .jstr longId)]), fun _ => false,
   fun _ _ => true⟩

end ConcreteInputs

section HelperLemmas

/-- Scanning skips a key whose value token is neither a string nor an
error, and resumes right after that value token. -/
theorem scan_tokens_skip_pair (s : String) (head : RTok) (rest : List RTok)
    (hns : ∀ v, head ≠ RTok.str v) (hne : head ≠ RTok.err) :
    scan_tokens (RTok.str s :: head :: rest) = scan_tokens rest := by
  cases head <;> first | rfl | exact absurd rfl (hns _) | exact absurd rfl hne

/-- Scanning skips any leading non-string, non-error token. -/
theorem scan_tokens_skip_one (head : RTok) (rest : List RTok)
    (hns : ∀ v, head ≠ RTok.str v) (hne : head ≠ RTok.err) :
    scan_tokens (head :: rest) = scan_tokens rest := by
  cases head <;> first | rfl | exact absurd rfl (hns _) | exact absurd rfl hne

end HelperLemmas

section Claims

/-- C1: the claim says that when both the destination artifact and its
signature sibling are already valid, `provision()` returns true with no fetch
invocation. Evaluating the source model in an environment where
`path_is_valid` accepts both paths shows the fast path does not short-circuit
(its `free`/`return` statements are commented out in the source, lines
206-207): both fetch invocations still occur. -/
theorem c1_valid_artifacts_still_fetch :
    (apply_webos_jailer_fix envAllValid).1 = true ∧
    ((apply_webos_jailer_fix envAllValid).2.filter isFetch).length = 2 := by
  decide

/-- C2: the claim says every fetch writes to the same path the existence
check inspects. Evaluating the source model shows both fetch destinations
are the hard-coded `/media/developer/temp/test.{1,2}` paths (the
`conf_path`/`sig_path` arguments are commented out on source lines 235 and
243), which differ from the checked `conf_path` and `sig_path`. -/
theorem c2_fetch_dst_differs_from_checked_path :
    ((apply_webos_jailer_fix envAllValid).2.filterMap fetchDst)
      = ["/media/developer/temp/test.1", "/media/developer/temp/test.2"] ∧
    conf_path = "/media/developer/jail_app.conf" ∧
    sig_path = "/media/developer/jail_app.conf.sig" ∧
    ("/media/developer/temp/test.1" : String) ≠ conf_path ∧
    ("/media/developer/temp/test.2" : String) ≠ sig_path := by
  decide

/-- C3: whenever the identifier resolves, the Orchestrator invokes the second
fetch no matter what any fetch returns (the invocation trace always contains
it), and the returned boolean is the conjunction of the two per-artifact
outcomes — in particular false when the first fails and the second
succeeds. -/
theorem c3_no_early_abort_and_aggregate_and
    (env : OrchEnv) (rel : String)
    (h : read_webos_release env.os_info = some rel) :
    OrchEvent.fetchCall (sig_url rel) "/media/developer/temp/test.2"
        ∈ (apply_webos_jailer_fix env).2 ∧
    (apply_webos_jailer_fix env).1 =
      (env.fetch (conf_url rel) "/media/developer/temp/test.1" &&
       env.fetch (sig_url rel) "/media/developer/temp/test.2") := by
  simp [apply_webos_jailer_fix, h]

/-- C3 witness: in `envFirstFetchFails` the first fetch fails, the second is
still invoked and succeeds, and the aggregate result is false. -/
theorem c3_witness :
    OrchEvent.fetchCall (sig_url "24") "/media/developer/temp/test.2"
        ∈ (apply_webos_jailer_fix envFirstFetchFails).2 ∧
    (apply_webos_jailer_fix envFirstFetchFails).1 =
      (envFirstFetchFails.fetch (conf_url "24") "/media/developer/temp/test.1" &&
       envFirstFetchFails.fetch (sig_url "24") "/media/developer/temp/test.2") :=
  c3_no_early_abort_and_aggregate_and envFirstFetchFails "24" rfl

/-- C4: the claim says every exit path of `http_download_file` releases each
acquired resource exactly once. Evaluating the model on the path with a 2xx
status and a non-NULL zero-length body buffer shows the connection and
transfer are balanced but the body buffer is acquired once and released zero
times: source lines 100-105 call `net_http_delete` and never `free(data)`. -/
theorem c4_empty_body_path_leaks_buffer :
    (http_download_file emptyBodyTransport).ok = false ∧
    connAcquires (http_download_file emptyBodyTransport).acts
      = connReleases (http_download_file emptyBodyTransport).acts ∧
    httpAcquires (http_download_file emptyBodyTransport).acts
      = httpReleases (http_download_file emptyBodyTransport).acts ∧
    dataAcquires (http_download_file emptyBodyTransport).acts = 1 ∧
    dataReleases (http_download_file emptyBodyTransport).acts = 0 := by
  decide

/-- C5: if the Identifier Reader yields Absent, `provision()` returns false
with an empty action trace: no notification, no fetch invocation, hence no
network activity and no file written. -/
theorem c5_absent_identifier_aborts
    (env : OrchEnv) (h : read_webos_release env.os_info = none) :
    apply_webos_jailer_fix env = (false, []) := by
  simp [apply_webos_jailer_fix, h]

/-- C5 witness: a well-formed identifier document without the release field
aborts provisioning with an empty trace. -/
theorem c5_witness : apply_webos_jailer_fix envNoField = (false, []) :=
  c5_absent_identifier_aborts envNoField rfl

/-- C6: whatever the rest of the transport does, a status outside the 2xx
class makes `http_download_file` return false with the destination file never
opened, hence untouched. -/
theorem c6_non_2xx_fails_file_untouched
    (t : Transport) (h : ¬ t.status.tdiv 100 = 2) :
    (http_download_file t).ok = false ∧
    (http_download_file t).file = FState.untouched := by
  have hb : (t.status.tdiv 100 == 2) = false := by
    simp [h]
  cases t with
  | mk conn_ok http_ok update_ok http_error status data open_ok write_cap =>
    simp only at hb
    cases conn_ok <;> cases http_ok <;> cases update_ok <;> cases http_error <;>
      simp [http_download_file, hb]

/-- C6 witness: a 404 response on an otherwise clean transport is rejected
and leaves the destination untouched. -/
theorem c6_witness :
    (http_download_file notFoundTransport).ok = false ∧
    (http_download_file notFoundTransport).file = FState.untouched :=
  c6_non_2xx_fails_file_untouched notFoundTransport (by decide)

/-- C7: a NULL body buffer or a zero-length body makes `http_download_file`
return false — whatever the status, including 2xx — with the destination file
untouched. -/
theorem c7_empty_body_fails
    (t : Transport) (h : t.data = none ∨ t.data = some []) :
    (http_download_file t).ok = false ∧
    (http_download_file t).file = FState.untouched := by
  unfold http_download_file
  rcases h with h | h <;> rw [h] <;>
    cases t.conn_ok <;> cases t.http_ok <;> cases t.update_ok <;>
    cases t.http_error <;> cases hb : (t.status.tdiv 100 == 2) <;>
    simp [hb]

/-- C7 witness: a NULL body with a 200 status yields false. -/
theorem c7_witness :
    (http_download_file nullBodyTransport).ok = false ∧
    (http_download_file nullBodyTransport).file = FState.untouched :=
  c7_empty_body_fails nullBodyTransport (Or.inl rfl)

/-- C8 counterexample: a document whose only `webos_release` key sits one
level below the top. A scan restricted to top-level pairs (the spec wording,
`specTopLevelString`) finds nothing, but the scanner of the source matches
the nested key and returns its value — refuting the claim that nested
strings are never matched as keys. -/
theorem c8_counterexample_nested_key_matched :
    read_webos_release (.parsed nestedOnlyDoc) = some "1.0" ∧
    specTopLevelString nestedOnlyDoc "webos_release" = none := by
  decide

/-- C8 amended: the Identifier Reader scans every string token of the stream
at any nesting depth as a candidate key (consuming the following token as its
value); the first candidate equal to `webos_release` whose value token is a
string wins and scanning stops there, whatever follows. Here: the match is
one level deep inside the first top-level pair, and any further pairs
(`inner`, `rest`) — including later duplicates — are ignored. -/
theorem c8_any_depth_first_match_wins
    (k v : String) (inner rest : List (String × JVal)) :
    read_webos_release (.parsed (.jobj
      ((k, .jobj (("webos_release", .jstr v) :: inner)) :: rest))) = some v := by
  simp [read_webos_release, tokens, tokensPairs, scan_tokens]

/-- C9 counterexample: a document whose `webos_release` field holds `""`
makes `read_webos_release` return a present, empty identifier — refuting the
claim that a present identifier is never empty. -/
theorem c9_counterexample_present_empty_identifier :
    read_webos_release (.parsed emptyValueDoc) = some "" := by
  decide

/-- C9 amended: whenever the scanner returns a present identifier, it is
exactly the string of the value token that immediately follows an occurrence
of the `webos_release` key token — with no constraint on that string, which
may in particular be empty. -/
theorem c9_present_identifier_is_captured_value (ts : List RTok) (w : String) :
    scan_tokens ts = some w →
    ∃ pre rest, ts = pre ++ RTok.str "webos_release" :: RTok.str w :: rest := by
  induction ts using scan_tokens.induct with
  | case1 => intro h; simp [scan_tokens] at h
  | case2 tail => intro h; simp [scan_tokens] at h
  | case3 v rest =>
      intro h
      simp [scan_tokens] at h
      exact ⟨[], rest, by rw [h]; rfl⟩
  | case4 key v rest hk ih =>
      intro h
      rw [show scan_tokens (RTok.str key :: RTok.str v :: rest)
            = scan_tokens rest by simp [scan_tokens, hk]] at h
      obtain ⟨pre, r, hr⟩ := ih h
      exact ⟨RTok.str key :: RTok.str v :: pre, r, by rw [hr]; rfl⟩
  | case5 s tail => intro h; simp [scan_tokens] at h
  | case6 s head rest hns hne ih =>
      intro h
      rw [scan_tokens_skip_pair s head rest (fun v hv => hns v hv) hne] at h
      obtain ⟨pre, r, hr⟩ := ih h
      exact ⟨RTok.str s :: head :: pre, r, by rw [hr]; rfl⟩
  | case7 s => intro h; simp [scan_tokens] at h
  | case8 head rest hne hsp hse hsc hsn ih =>
      intro h
      have hns : ∀ v, head ≠ RTok.str v := by
        intro v hv
        cases rest with
        | nil => exact hsn v hv rfl
        | cons a as => exact hsc v a as hv rfl
      rw [scan_tokens_skip_one head rest hns hne] at h
      obtain ⟨pre, r, hr⟩ := ih h
      exact ⟨head :: pre, r, by rw [hr]; rfl⟩

/-- C9 witness: the empty capture of `emptyValueToks` indeed comes from the
key token followed by the empty value token. -/
theorem c9_witness :
    ∃ pre rest, emptyValueToks
      = pre ++ RTok.str "webos_release" :: RTok.str "" :: rest :=
  c9_present_identifier_is_captured_value emptyValueToks "" (by decide)

/-- C10: when the formatted configuration URL would exceed 511 characters,
the URL actually used is its silent 511-character truncation: no error is
raised, the fetch is still invoked with the truncated URL, and the aggregate
result is still just the conjunction of the two fetch outcomes. -/
theorem c10_oversized_url_truncated_silently
    (env : OrchEnv) (rel : String)
    (hrel : read_webos_release env.os_info = some rel)
    (hlen : 511 <
      ("https://developer.lge.com/common/file/DownloadFile.dev?sdkVersion="
        ++ rel ++ "&fileType=conf").length) :
    (conf_url rel).length = 511 ∧
    conf_url rel ≠
      ("https://developer.lge.com/common/file/DownloadFile.dev?sdkVersion="
        ++ rel ++ "&fileType=conf") ∧
    OrchEvent.fetchCall (conf_url rel) "/media/developer/temp/test.1"
        ∈ (apply_webos_jailer_fix env).2 ∧
    (apply_webos_jailer_fix env).1 =
      (env.fetch (conf_url rel) "/media/developer/temp/test.1" &&
       env.fetch (sig_url rel) "/media/developer/temp/test.2") := by
  have hlen' : (conf_url rel).length = 511 := by
    show (List.take 511 _).length = 511
    rw [List.length_take]
    have : 511 <
        (("https://developer.lge.com/common/file/DownloadFile.dev?sdkVersion="
          ++ rel ++ "&fileType=conf").data).length := hlen
    omega
  refine ⟨hlen', ?_, ?_, ?_⟩
  · intro hEq
    have := congrArg String.length hEq
    rw [hlen'] at this
    omega
  · simp [apply_webos_jailer_fix, hrel]
  · simp [apply_webos_jailer_fix, hrel]

set_option maxRecDepth 100000 in
/-- C10 witness: a 520-character identifier overflows the URL buffer; the
fetch still runs on the 511-character truncation and provisioning reports
the conjunction of the fetch outcomes. -/
theorem c10_witness :
    (conf_url longId).length = 511 ∧
    conf_url longId ≠
      ("https://developer.lge.com/common/file/DownloadFile.dev?sdkVersion="
        ++ longId ++ "&fileType=conf") ∧
    OrchEvent.fetchCall (conf_url longId) "/media/developer/temp/test.1"
        ∈ (apply_webos_jailer_fix envLongId).2 ∧
    (apply_webos_jailer_fix envLongId).1 =
      (envLongId.fetch (conf_url longId) "/media/developer/temp/test.1" &&
       envLongId.fetch (sig_url longId) "/media/developer/temp/test.2") :=
  c10_oversized_url_truncated_silently envLongId longId (by decide) (by decide)

end Claims
